import Mathlib

/-!
# Verification of the COALA IP orchestrator (`coalaip/coalaip.py`)

A shallow embedding of the high-level entity-graph construction logic of
the `CoalaIp` class: `register_manifestation`, `derive_right` and
`transfer_right`.  Python dicts become association lists of string keys and
JSON-like values; the persistence plugin becomes an abstract result
function plus an explicit ledger state threading a trace of the creation
calls issued; exceptions become an error sum returned alongside the final
state (so the theorems can speak about which creation calls were issued
before a failure).
-/

namespace CoalaIp

/-- JSON-compatible attribute values stored in an entity's data mapping.
Only the shapes the orchestrator's truthiness tests distinguish are needed:
`vnull` models Python `None`. -/
inductive Val where
  | vnull : Val
  | vstr (s : String) : Val
  | vint (n : Int) : Val
  | vbool (b : Bool) : Val
deriving DecidableEq, Repr

/-- Python truthiness of a value: `None`, `""`, `0` and `False` are falsy. -/
def Val.truthy : Val → Bool
  | Val.vnull => false
  | Val.vstr s => !(s == "")
  | Val.vint n => !(n == 0)
  | Val.vbool b => b

/-- A Python dict of model data: an association list from string keys to
values, first binding wins (Python dicts have unique keys; lookups and
updates below use the first occurrence). -/
abbrev DataMap := List (String × Val)

/-- `d.get(key)` in Python: `none` when the key is absent. -/
def DataMap.get : DataMap → String → Option Val
  | [], _ => none
  | (k, v) :: rest, key => if k == key then some v else DataMap.get rest key

/-- `d[key] = v` in Python: update the existing binding in place, else
append a new binding at the end (Python dicts preserve insertion order). -/
def DataMap.set : DataMap → String → Val → DataMap
  | [], key, v => [(key, v)]
  | (k, w) :: rest, key, v =>
      if k == key then (key, v) :: rest else (k, w) :: DataMap.set rest key v

/-- The keys of a data mapping, in order. -/
def DataMap.keys (d : DataMap) : List String := d.map Prod.fst

/-- Truthiness of a `dict.get` result: an absent key is falsy, as in
`if not d.get(key):`. -/
def truthyOpt : Option Val → Bool
  | none => false
  | some v => v.truthy

/-- The closed set of entity variants of the COALA IP model
(`coalaip.models`): Work, Manifestation, Copyright, Right and Right
subtypes (e.g. a license-like right). -/
inductive EntityKind where
  | work : EntityKind
  | manifestation : EntityKind
  | copyright : EntityKind
  | right : EntityKind
  | rightSub : EntityKind
deriving DecidableEq, Repr

/-- `isinstance(x, Right)` for the closed variant set: the Right family is
the base Right and its subtypes. -/
def isRightKind : EntityKind → Bool
  | EntityKind.right => true
  | EntityKind.rightSub => true
  | _ => false

/-- Modelled from the spec: an Entity (`coalaip.models`, not in the source
tree) holds its attribute `data` and an opaque `persistId`, absent before
creation and assigned exactly once by a successful creation through the
Plugin Boundary. -/
structure Entity where
  kind : EntityKind
  data : DataMap
  persistId : Option String
deriving DecidableEq, Repr

/-- The error taxonomy of the orchestrator: Python `TypeError`,
`ValueError`, `EntityNotYetPersistedError`, `EntityDataError`,
`EntityCreationError` and `NotImplementedError`. -/
inductive CoalaError where
  | typeError : CoalaError
  | valueError : CoalaError
  | entityNotYetPersistedError : CoalaError
  | entityDataError : CoalaError
  | entityCreationError : CoalaError
  | notImplementedError : CoalaError
deriving DecidableEq, Repr

/-- Modelled from the spec: the Plugin Boundary (`coalaip.plugin`, not in
the source tree).  `createResult n` is the outcome of the `n`-th creation
call issued through the plugin over its lifetime: a persisted identifier,
or `none` when the backend rejects the call. -/
structure Plugin where
  createResult : Nat → Option String

/-- One creation call issued to the Plugin Boundary: the entity kind, the
data sent, and the acting user. -/
structure CreationCall where
  kind : EntityKind
  data : DataMap
  user : String
deriving DecidableEq, Repr

/-- The observable state of the persistence layer: how many creation calls
have been issued so far, and the trace of those calls in order. -/
structure LedgerState where
  count : Nat
  trace : List CreationCall
deriving DecidableEq, Repr

/-- `entity.persist_id` read as a data value: `None` before creation,
the identifier string afterwards. -/
def pidVal : Option String → Val
  | none => Val.vnull
  | some s => Val.vstr s

/-- Modelled from the spec: per-variant structural validation performed by
the Entity constructors (`coalaip.models`, not in the source tree).  The
spec fixes only the Manifestation rule (a Manifestation requires a name or
a reference to a Work); the other variants are left unconstrained. -/
def validData : EntityKind → DataMap → Bool
  | EntityKind.manifestation, d =>
      truthyOpt (DataMap.get d "name") || truthyOpt (DataMap.get d "manifestationOfWork")
  | _, _ => true

/-- Modelled from the spec: constructing an entity in memory from
caller-supplied data validates the data structurally and fails with an
entity-data error when it is malformed; no `persistId` yet. -/
def mkEntity (kind : EntityKind) (data : DataMap) : Except CoalaError Entity :=
  if validData kind data then Except.ok ⟨kind, data, none⟩
  else Except.error CoalaError.entityDataError

/-- Modelled from the spec: `entity.create(user, ...)` sends the entity's
data to the Plugin Boundary (recorded on the trace, the call being issued
either way), and on success assigns the returned identifier to
`persistId`; a backend rejection surfaces as an entity-creation error. -/
def Entity.create (pl : Plugin) (e : Entity) (user : String) (σ : LedgerState) :
    Except CoalaError Entity × LedgerState :=
  match pl.createResult σ.count with
  | none => (Except.error CoalaError.entityCreationError,
      ⟨σ.count + 1, σ.trace ++ [⟨e.kind, e.data, user⟩]⟩)
  | some pid => (Except.ok { e with persistId := some pid },
      ⟨σ.count + 1, σ.trace ++ [⟨e.kind, e.data, user⟩]⟩)

/-- The `RegistrationResult` namedtuple (`coalaip.py` lines 9-10):
the Copyright, Manifestation and (possibly absent) Work of one
`register_manifestation` run, as named fields. -/
structure RegistrationResult where
  copyright : Entity
  manifestation : Entity
  work : Option Entity
deriving DecidableEq, Repr

/-- The Work-handling prefix of `register_manifestation`
(`coalaip.py` lines 124-144): decide which Work the Manifestation
references (none, an existing one, or a newly created one) and embed its
identifier into `manifestation_data`. -/
def resolve_work (pl : Plugin) (manifestation_data : DataMap) (user : String)
    (existing_work : Option Entity) (work_data : Option DataMap) (σ : LedgerState) :
    Except CoalaError (Option Entity × DataMap) × LedgerState :=
  if truthyOpt (DataMap.get manifestation_data "manifestationOfWork") then
    (Except.ok (none, manifestation_data), σ)
  else
    match existing_work with
    | none =>
        match mkEntity EntityKind.work
            (match work_data with
             | none => [("name", (DataMap.get manifestation_data "name").getD Val.vnull)]
             | some wd => wd) with
        | Except.error e => (Except.error e, σ)
        | Except.ok w =>
            match Entity.create pl w user σ with
            | (Except.error e, σ2) => (Except.error e, σ2)
            | (Except.ok w2, σ2) =>
                (Except.ok (some w2,
                  DataMap.set manifestation_data "manifestationOfWork" (pidVal w2.persistId)), σ2)
    | some w =>
        if w.kind == EntityKind.work then
          match w.persistId with
          | none => (Except.error CoalaError.entityNotYetPersistedError, σ)
          | some pid =>
              (Except.ok (some w,
                DataMap.set manifestation_data "manifestationOfWork" (Val.vstr pid)), σ)
        else (Except.error CoalaError.typeError, σ)

/-- `CoalaIp.register_manifestation` (`coalaip.py` lines 59-153): resolve
the Work, then create the Manifestation from the (updated) data, then
create its Copyright referencing the Manifestation, and return the three
entities. -/
def register_manifestation (pl : Plugin) (manifestation_data : DataMap) (user : String)
    (existing_work : Option Entity) (work_data : Option DataMap) (σ : LedgerState) :
    Except CoalaError RegistrationResult × LedgerState :=
  match resolve_work pl manifestation_data user existing_work work_data σ with
  | (Except.error e, σ1) => (Except.error e, σ1)
  | (Except.ok (work, md), σ1) =>
      match mkEntity EntityKind.manifestation md with
      | Except.error e => (Except.error e, σ1)
      | Except.ok m =>
          match Entity.create pl m user σ1 with
          | (Except.error e, σ2) => (Except.error e, σ2)
          | (Except.ok m2, σ2) =>
              match mkEntity EntityKind.copyright [("rightsOf", pidVal m2.persistId)] with
              | Except.error e => (Except.error e, σ2)
              | Except.ok c =>
                  match Entity.create pl c user σ2 with
                  | (Except.error e, σ3) => (Except.error e, σ3)
                  | (Except.ok c2, σ3) => (Except.ok ⟨c2, m2, work⟩, σ3)

/-- `CoalaIp.derive_right` (`coalaip.py` lines 155-217): resolve the
lineage (`allowedBy`) of the new Right from the source Right unless
supplied, then create the Right. -/
def derive_right (pl : Plugin) (right_data : DataMap) (current_holder : String)
    (source_right : Option Entity) (right_model_kind : EntityKind) (σ : LedgerState) :
    Except CoalaError Entity × LedgerState :=
  let resolved : Except CoalaError DataMap :=
    if truthyOpt (DataMap.get right_data "allowedBy") then Except.ok right_data
    else
      match source_right with
      | none => Except.error CoalaError.valueError
      | some sr =>
          if isRightKind sr.kind then
            match sr.persistId with
            | none => Except.error CoalaError.entityNotYetPersistedError
            | some pid => Except.ok (DataMap.set right_data "allowedBy" (Val.vstr pid))
          else Except.error CoalaError.typeError
  match resolved with
  | Except.error e => (Except.error e, σ)
  | Except.ok rd =>
      match mkEntity right_model_kind rd with
      | Except.error e => (Except.error e, σ)
      | Except.ok r =>
          match Entity.create pl r current_holder σ with
          | (Except.error e, σ2) => (Except.error e, σ2)
          | (Except.ok r2, σ2) => (Except.ok r2, σ2)

/-- `CoalaIp.transfer_right` (`coalaip.py` lines 219-240): declared but
unimplemented; always raises `NotImplementedError` before touching the
plugin. -/
def transfer_right (pl : Plugin) (right : String) (rights_assignment_data : DataMap)
    (from_user : String) (to_user : String) (data_format : Option String)
    (σ : LedgerState) : Except CoalaError Unit × LedgerState :=
  (Except.error CoalaError.notImplementedError, σ)


/-! ## Properties of the data-map operations -/

/-- Setting a key makes lookup of that key return the new value. -/
theorem DataMap.get_set_self (d : DataMap) (key : String) (v : Val) :
    DataMap.get (DataMap.set d key v) key = some v := by
  induction d with
  | nil => simp [DataMap.set, DataMap.get]
  | cons p rest ih =>
      obtain ⟨k, w⟩ := p
      by_cases h : k = key
      · simp [DataMap.set, DataMap.get, h]
      · simp [DataMap.set, DataMap.get, h, ih]

/-- Setting a key leaves lookups of every other key unchanged. -/
theorem DataMap.get_set_ne (d : DataMap) (key : String) (v : Val) (k2 : String)
    (h : key ≠ k2) : DataMap.get (DataMap.set d key v) k2 = DataMap.get d k2 := by
  induction d with
  | nil => simp [DataMap.set, DataMap.get, h]
  | cons p rest ih =>
      obtain ⟨k, w⟩ := p
      by_cases hk : k = key
      · subst hk
        simp [DataMap.set, DataMap.get, h]
      · simp [DataMap.set, DataMap.get, hk, ih]

/-- Setting a key changes no other keys: it updates in place when the key
is present, and appends exactly the new key at the end otherwise. -/
theorem DataMap.keys_set (d : DataMap) (key : String) (v : Val) :
    DataMap.keys (DataMap.set d key v) =
      if (DataMap.get d key).isSome then DataMap.keys d
      else DataMap.keys d ++ [key] := by
  induction d with
  | nil => simp [DataMap.set, DataMap.get, DataMap.keys]
  | cons p rest ih =>
      obtain ⟨k, w⟩ := p
      by_cases hk : k = key
      · simp [DataMap.set, DataMap.get, DataMap.keys, hk]
      · by_cases hs : (DataMap.get rest key).isSome
        · simp [DataMap.set, DataMap.get, DataMap.keys, hk, hs] at ih ⊢
          exact ih
        · simp [DataMap.set, DataMap.get, DataMap.keys, hk, hs] at ih ⊢
          exact ih

/-- Any Right-family variant passes structural validation (the spec
constrains only the Manifestation variant). -/
theorem validData_right (k : EntityKind) (d : DataMap) (h : isRightKind k = true) :
    validData k d = true := by
  cases k <;> simp_all [isRightKind, validData]

/-- Embedding a Work reference keeps a valid Manifestation data mapping
valid: when `manifestationOfWork` was falsy, validity came from the name,
which the update does not touch. -/
theorem validData_set_mow (d : DataMap) (v : Val)
    (hvalid : validData EntityKind.manifestation d = true)
    (hmow : truthyOpt (DataMap.get d "manifestationOfWork") = false) :
    validData EntityKind.manifestation (DataMap.set d "manifestationOfWork" v) = true := by
  simp [validData, hmow] at hvalid
  have hne : "manifestationOfWork" ≠ "name" := by decide
  simp [validData, DataMap.get_set_ne d "manifestationOfWork" v "name" hne, hvalid]


/-! ## Characterizations of the successful runs (shared helper lemmas) -/

/-- Full characterization of a `register_manifestation` run that creates a
new Work: no `manifestationOfWork` supplied, no existing work, no work
data, and the plugin accepting all three creation calls.  The run issues
exactly the Work, Manifestation and Copyright creation calls, in that
order, each dependent call embedding the identifier returned by its
prerequisite. -/
theorem register_manifestation_new_work_spec (pl : Plugin) (md : DataMap)
    (u : String) (σ : LedgerState) (wid mid cid : String)
    (hvalid : validData EntityKind.manifestation md = true)
    (hmow : truthyOpt (DataMap.get md "manifestationOfWork") = false)
    (h0 : pl.createResult σ.count = some wid)
    (h1 : pl.createResult (σ.count + 1) = some mid)
    (h2 : pl.createResult (σ.count + 2) = some cid) :
    register_manifestation pl md u none none σ =
      (Except.ok
        ⟨⟨EntityKind.copyright, [("rightsOf", Val.vstr mid)], some cid⟩,
         ⟨EntityKind.manifestation,
           DataMap.set md "manifestationOfWork" (Val.vstr wid), some mid⟩,
         some ⟨EntityKind.work,
           [("name", (DataMap.get md "name").getD Val.vnull)], some wid⟩⟩,
       ⟨σ.count + 3, σ.trace ++
         [⟨EntityKind.work, [("name", (DataMap.get md "name").getD Val.vnull)], u⟩,
          ⟨EntityKind.manifestation,
            DataMap.set md "manifestationOfWork" (Val.vstr wid), u⟩,
          ⟨EntityKind.copyright, [("rightsOf", Val.vstr mid)], u⟩]⟩) := by
  have h1' : pl.createResult (σ.count + 1) = some mid := h1
  have h2' : pl.createResult (σ.count + 1 + 1) = some cid := h2
  have hv2 := validData_set_mow md (Val.vstr wid) hvalid hmow
  simp [validData] at hv2
  simp [register_manifestation, resolve_work, mkEntity, Entity.create, validData,
        pidVal, hmow, h0, h1', h2', hv2]

/-- Full characterization of a `register_manifestation` run given an
already persisted existing Work: only the Manifestation and Copyright
creation calls are issued, and the Manifestation embeds the existing
Work's identifier. -/
theorem register_manifestation_existing_work_spec (pl : Plugin) (md : DataMap)
    (u : String) (w : Entity) (wd : Option DataMap) (σ : LedgerState)
    (pid mid cid : String)
    (hvalid : validData EntityKind.manifestation md = true)
    (hmow : truthyOpt (DataMap.get md "manifestationOfWork") = false)
    (hk : w.kind = EntityKind.work)
    (hp : w.persistId = some pid)
    (h0 : pl.createResult σ.count = some mid)
    (h1 : pl.createResult (σ.count + 1) = some cid) :
    register_manifestation pl md u (some w) wd σ =
      (Except.ok
        ⟨⟨EntityKind.copyright, [("rightsOf", Val.vstr mid)], some cid⟩,
         ⟨EntityKind.manifestation,
           DataMap.set md "manifestationOfWork" (Val.vstr pid), some mid⟩,
         some w⟩,
       ⟨σ.count + 2, σ.trace ++
         [⟨EntityKind.manifestation,
            DataMap.set md "manifestationOfWork" (Val.vstr pid), u⟩,
          ⟨EntityKind.copyright, [("rightsOf", Val.vstr mid)], u⟩]⟩) := by
  have h1' : pl.createResult (σ.count + 1) = some cid := h1
  have hv2 := validData_set_mow md (Val.vstr pid) hvalid hmow
  simp [validData] at hv2
  simp [register_manifestation, resolve_work, mkEntity, Entity.create, validData,
        pidVal, hmow, hk, hp, h0, h1', hv2]

/-- Full characterization of a `register_manifestation` run whose input
already carries a truthy `manifestationOfWork`: all Work handling is
skipped, the Manifestation is created from the unchanged input data, and
the returned work field is `none`. -/
theorem register_manifestation_skip_work_spec (pl : Plugin) (md : DataMap)
    (u : String) (ew : Option Entity) (wd : Option DataMap) (σ : LedgerState)
    (mid cid : String)
    (hmow : truthyOpt (DataMap.get md "manifestationOfWork") = true)
    (h0 : pl.createResult σ.count = some mid)
    (h1 : pl.createResult (σ.count + 1) = some cid) :
    register_manifestation pl md u ew wd σ =
      (Except.ok
        ⟨⟨EntityKind.copyright, [("rightsOf", Val.vstr mid)], some cid⟩,
         ⟨EntityKind.manifestation, md, some mid⟩,
         none⟩,
       ⟨σ.count + 2, σ.trace ++
         [⟨EntityKind.manifestation, md, u⟩,
          ⟨EntityKind.copyright, [("rightsOf", Val.vstr mid)], u⟩]⟩) := by
  have h1' : pl.createResult (σ.count + 1) = some cid := h1
  simp [register_manifestation, resolve_work, mkEntity, Entity.create, validData,
        pidVal, hmow, h0, h1']

/-- Full characterization of a `derive_right` run resolving its lineage
from a persisted source Right: the created Right's data is the input data
with `allowedBy` set to the source Right's identifier. -/
theorem derive_right_source_spec (pl : Plugin) (rd : DataMap) (h : String)
    (sr : Entity) (k : EntityKind) (σ : LedgerState) (pid rid : String)
    (hab : truthyOpt (DataMap.get rd "allowedBy") = false)
    (hsr : isRightKind sr.kind = true)
    (hsp : sr.persistId = some pid)
    (hk : isRightKind k = true)
    (h0 : pl.createResult σ.count = some rid) :
    derive_right pl rd h (some sr) k σ =
      (Except.ok ⟨k, DataMap.set rd "allowedBy" (Val.vstr pid), some rid⟩,
       ⟨σ.count + 1, σ.trace ++
         [⟨k, DataMap.set rd "allowedBy" (Val.vstr pid), h⟩]⟩) := by
  have hvk := validData_right k (DataMap.set rd "allowedBy" (Val.vstr pid)) hk
  simp [derive_right, mkEntity, Entity.create, hab, hsr, hsp, h0, hvk]


/-! ## Inversion lemmas for successful runs -/

/-- A successfully constructed entity is exactly the given kind and data,
with no identifier yet. -/
theorem mkEntity_ok (k : EntityKind) (d : DataMap) (m : Entity)
    (h : mkEntity k d = Except.ok m) : m = ⟨k, d, none⟩ := by
  unfold mkEntity at h
  split at h
  · simpa using h.symm
  · simp at h

/-- A successful creation call returns the entity with the identifier the
plugin produced for this call, and appends exactly this call to the
trace. -/
theorem Entity.create_ok (pl : Plugin) (e : Entity) (user : String)
    (σ : LedgerState) (e2 : Entity) (σ2 : LedgerState)
    (h : Entity.create pl e user σ = (Except.ok e2, σ2)) :
    ∃ pid, pl.createResult σ.count = some pid ∧
      e2 = { e with persistId := some pid } ∧
      σ2 = ⟨σ.count + 1, σ.trace ++ [⟨e.kind, e.data, user⟩]⟩ := by
  unfold Entity.create at h
  split at h
  · simp at h
  · rename_i pid hpid
    simp only [Prod.mk.injEq, Except.ok.injEq] at h
    exact ⟨pid, hpid, h.1.symm, h.2.symm⟩

/-- When the Work-handling prefix resolves a Work, that Work carries an
identifier and the updated manifestation data embeds exactly it under
`manifestationOfWork`. -/
theorem resolve_work_ok_some (pl : Plugin) (md : DataMap) (u : String)
    (ew : Option Entity) (wd : Option DataMap) (σ : LedgerState)
    (w0 : Entity) (md2 : DataMap) (σ1 : LedgerState)
    (h : resolve_work pl md u ew wd σ = (Except.ok (some w0, md2), σ1)) :
    ∃ pid, w0.persistId = some pid ∧
      md2 = DataMap.set md "manifestationOfWork" (Val.vstr pid) := by
  unfold resolve_work at h
  split at h
  · simp at h
  · split at h
    · split at h
      · simp at h
      · rename_i w hw
        split at h
        · simp at h
        · rename_i w2 σ2 hc
          obtain ⟨pid, hpid, hw2, hσ2⟩ := Entity.create_ok pl w u σ w2 σ2 hc
          simp only [Prod.mk.injEq, Except.ok.injEq, Option.some.injEq] at h
          refine ⟨pid, ?_, ?_⟩
          · rw [← h.1.1, hw2]
          · rw [← h.1.2, hw2]
            rfl
    · rename_i w
      split at h
      · split at h
        · simp at h
        · rename_i pid hpid
          simp only [Prod.mk.injEq, Except.ok.injEq, Option.some.injEq] at h
          refine ⟨pid, ?_, ?_⟩
          · rw [← h.1.1, hpid]
          · exact h.1.2.symm
      · simp at h

/-- A successful `register_manifestation` run factors through a successful
Work resolution, and the returned Manifestation was constructed from the
updated manifestation data. -/
theorem register_manifestation_ok_inv (pl : Plugin) (md : DataMap) (u : String)
    (ew : Option Entity) (wd : Option DataMap) (σ : LedgerState)
    (res : RegistrationResult) (σf : LedgerState)
    (h : register_manifestation pl md u ew wd σ = (Except.ok res, σf)) :
    ∃ work md2 σ1, resolve_work pl md u ew wd σ = (Except.ok (work, md2), σ1) ∧
      res.work = work ∧ res.manifestation.data = md2 := by
  unfold register_manifestation at h
  split at h
  · simp at h
  · rename_i work md2 σ1 hres
    split at h
    · simp at h
    · rename_i m hm
      split at h
      · simp at h
      · rename_i m2 σ2 hc
        split at h
        · simp at h
        · rename_i c hcp
          split at h
          · simp at h
          · rename_i c2 σ3 hcc
            simp only [Prod.mk.injEq, Except.ok.injEq] at h
            refine ⟨work, md2, σ1, hres, ?_, ?_⟩
            · rw [← h.1]
            · obtain ⟨pid, hpid, hm2, hσ2⟩ := Entity.create_ok pl m u σ1 m2 σ2 hc
              have h2 : m = ⟨EntityKind.manifestation, md2, none⟩ := mkEntity_ok _ _ _ hm
              rw [← h.1, hm2, h2]

/-- A successful lineage-resolving `derive_right` run embeds the source
Right's identifier as the created Right's `allowedBy`. -/
theorem derive_right_ok_inv (pl : Plugin) (rd : DataMap) (hd : String)
    (sr : Entity) (k : EntityKind) (σ : LedgerState) (r : Entity)
    (σ2 : LedgerState)
    (hab : truthyOpt (DataMap.get rd "allowedBy") = false)
    (h : derive_right pl rd hd (some sr) k σ = (Except.ok r, σ2)) :
    ∃ pid, sr.persistId = some pid ∧
      r.data = DataMap.set rd "allowedBy" (Val.vstr pid) := by
  unfold derive_right at h
  rw [hab] at h
  simp only [Bool.false_eq_true, if_false] at h
  split at h
  · simp at h
  · rename_i rd2 hres
    split at h
    · simp at h
    · rename_i r0 hmk
      split at h
      · simp at h
      · rename_i r2 σ2b hc
        split at hres
        · split at hres
          · simp at hres
          · rename_i pid hpid
            refine ⟨pid, hpid, ?_⟩
            obtain ⟨pid2, hpid2, hr2, hσ2⟩ := Entity.create_ok pl r0 hd σ r2 σ2b hc
            have h0 : r0 = ⟨k, rd2, none⟩ := mkEntity_ok _ _ _ hmk
            simp only [Prod.mk.injEq, Except.ok.injEq] at h
            have h2 : rd2 = DataMap.set rd "allowedBy" (Val.vstr pid) := by
              simpa using hres.symm
            rw [← h.1, hr2, h0, h2]
        · simp at hres


/-! ## Concrete fixture for witnesses -/

/-- A deterministic, well-behaved backend for concrete runs: the n-th
creation call returns the identifier `idn`. -/
def testPlugin : Plugin :=
  ⟨fun n => some (List.getD ["id0", "id1", "id2", "id3", "id4", "id5"] n "id")⟩

/-! ## The claims -/

/-- C1: for every valid `manifestationData` mapping without a
`manifestationOfWork` key, with no `existingWork` and no `workData`
supplied, `register_manifestation` creates exactly one Work whose data is
`{name: manifestationData.name}`, then a Manifestation whose
`manifestationOfWork` equals that Work's `persistId`, then a Copyright
whose `rightsOf` equals the Manifestation's `persistId`, issuing the three
creation calls in that order (the trace extends by exactly the Work, the
Manifestation, then the Copyright call, each dependent call embedding the
identifier returned by its prerequisite's completed call), and the result
carries exactly that Work, Manifestation and Copyright. -/
theorem register_manifestation_fresh_full_graph (pl : Plugin) (md : DataMap)
    (u : String) (σ : LedgerState) (wid mid cid : String)
    (hvalid : validData EntityKind.manifestation md = true)
    (hmow : DataMap.get md "manifestationOfWork" = none)
    (h0 : pl.createResult σ.count = some wid)
    (h1 : pl.createResult (σ.count + 1) = some mid)
    (h2 : pl.createResult (σ.count + 2) = some cid) :
    register_manifestation pl md u none none σ =
      (Except.ok
        ⟨⟨EntityKind.copyright, [("rightsOf", Val.vstr mid)], some cid⟩,
         ⟨EntityKind.manifestation,
           DataMap.set md "manifestationOfWork" (Val.vstr wid), some mid⟩,
         some ⟨EntityKind.work,
           [("name", (DataMap.get md "name").getD Val.vnull)], some wid⟩⟩,
       ⟨σ.count + 3, σ.trace ++
         [⟨EntityKind.work, [("name", (DataMap.get md "name").getD Val.vnull)], u⟩,
          ⟨EntityKind.manifestation,
            DataMap.set md "manifestationOfWork" (Val.vstr wid), u⟩,
          ⟨EntityKind.copyright, [("rightsOf", Val.vstr mid)], u⟩]⟩) ∧
    DataMap.get (DataMap.set md "manifestationOfWork" (Val.vstr wid))
      "manifestationOfWork" = some (Val.vstr wid) := by
  have hm : truthyOpt (DataMap.get md "manifestationOfWork") = false := by
    rw [hmow]; rfl
  exact ⟨register_manifestation_new_work_spec pl md u σ wid mid cid hvalid hm h0 h1 h2,
         DataMap.get_set_self md "manifestationOfWork" (Val.vstr wid)⟩

/-- Witness for C1 at a concrete input. -/
theorem register_manifestation_fresh_full_graph_witness :
    register_manifestation testPlugin [("name", Val.vstr "Song A")] "u" none none ⟨0, []⟩ =
      (Except.ok
        ⟨⟨EntityKind.copyright, [("rightsOf", Val.vstr "id1")], some "id2"⟩,
         ⟨EntityKind.manifestation,
           [("name", Val.vstr "Song A"), ("manifestationOfWork", Val.vstr "id0")],
           some "id1"⟩,
         some ⟨EntityKind.work, [("name", Val.vstr "Song A")], some "id0"⟩⟩,
       ⟨3, [⟨EntityKind.work, [("name", Val.vstr "Song A")], "u"⟩,
            ⟨EntityKind.manifestation,
              [("name", Val.vstr "Song A"), ("manifestationOfWork", Val.vstr "id0")], "u"⟩,
            ⟨EntityKind.copyright, [("rightsOf", Val.vstr "id1")], "u"⟩]⟩) ∧
    DataMap.get
      (DataMap.set [("name", Val.vstr "Song A")] "manifestationOfWork" (Val.vstr "id0"))
      "manifestationOfWork" = some (Val.vstr "id0") :=
  register_manifestation_fresh_full_graph testPlugin [("name", Val.vstr "Song A")]
    "u" ⟨0, []⟩ "id0" "id1" "id2" (by decide) (by decide) rfl rfl rfl

/-- C2 counterexample: the claim reads "contains `manifestationOfWork`" as
key presence, but the code tests truthiness.  At the valid mapping
`{name: "Song A", manifestationOfWork: None}` the key is present, yet a
Work is still created, the result's work field is not null, and
`manifestationOfWork` is overwritten with the new Work's identifier. -/
theorem register_manifestation_falsy_mow_still_creates_work :
    DataMap.get [("name", Val.vstr "Song A"), ("manifestationOfWork", Val.vnull)]
      "manifestationOfWork" = some Val.vnull ∧
    validData EntityKind.manifestation
      [("name", Val.vstr "Song A"), ("manifestationOfWork", Val.vnull)] = true ∧
    register_manifestation testPlugin
      [("name", Val.vstr "Song A"), ("manifestationOfWork", Val.vnull)]
      "u" none none ⟨0, []⟩ =
      (Except.ok
        ⟨⟨EntityKind.copyright, [("rightsOf", Val.vstr "id1")], some "id2"⟩,
         ⟨EntityKind.manifestation,
           [("name", Val.vstr "Song A"), ("manifestationOfWork", Val.vstr "id0")],
           some "id1"⟩,
         some ⟨EntityKind.work, [("name", Val.vstr "Song A")], some "id0"⟩⟩,
       ⟨3, [⟨EntityKind.work, [("name", Val.vstr "Song A")], "u"⟩,
            ⟨EntityKind.manifestation,
              [("name", Val.vstr "Song A"), ("manifestationOfWork", Val.vstr "id0")], "u"⟩,
            ⟨EntityKind.copyright, [("rightsOf", Val.vstr "id1")], "u"⟩]⟩) := by
  refine ⟨rfl, rfl, ?_⟩
  rfl

/-- C2 (amended): for every valid `manifestationData` whose
`manifestationOfWork` holds a truthy value, `register_manifestation`
creates no Work (whatever `existingWork` and `workData` are), returns
`none` for the work field, and the created Manifestation's data is the
caller-supplied mapping unchanged (so its `manifestationOfWork` is the
caller-supplied value). -/
theorem register_manifestation_truthy_mow_skips_work (pl : Plugin) (md : DataMap)
    (u : String) (ew : Option Entity) (wd : Option DataMap) (σ : LedgerState)
    (mid cid : String)
    (hmow : truthyOpt (DataMap.get md "manifestationOfWork") = true)
    (h0 : pl.createResult σ.count = some mid)
    (h1 : pl.createResult (σ.count + 1) = some cid) :
    register_manifestation pl md u ew wd σ =
      (Except.ok
        ⟨⟨EntityKind.copyright, [("rightsOf", Val.vstr mid)], some cid⟩,
         ⟨EntityKind.manifestation, md, some mid⟩,
         none⟩,
       ⟨σ.count + 2, σ.trace ++
         [⟨EntityKind.manifestation, md, u⟩,
          ⟨EntityKind.copyright, [("rightsOf", Val.vstr mid)], u⟩]⟩) :=
  register_manifestation_skip_work_spec pl md u ew wd σ mid cid hmow h0 h1

/-- Witness for the amended C2 at a concrete input. -/
theorem register_manifestation_truthy_mow_skips_work_witness :
    register_manifestation testPlugin
      [("name", Val.vstr "Song A"), ("manifestationOfWork", Val.vstr "W1")]
      "u" none none ⟨0, []⟩ =
      (Except.ok
        ⟨⟨EntityKind.copyright, [("rightsOf", Val.vstr "id0")], some "id1"⟩,
         ⟨EntityKind.manifestation,
           [("name", Val.vstr "Song A"), ("manifestationOfWork", Val.vstr "W1")],
           some "id0"⟩,
         none⟩,
       ⟨2, [⟨EntityKind.manifestation,
              [("name", Val.vstr "Song A"), ("manifestationOfWork", Val.vstr "W1")], "u"⟩,
            ⟨EntityKind.copyright, [("rightsOf", Val.vstr "id0")], "u"⟩]⟩) :=
  register_manifestation_truthy_mow_skips_work testPlugin
    [("name", Val.vstr "Song A"), ("manifestationOfWork", Val.vstr "W1")]
    "u" none none ⟨0, []⟩ "id0" "id1" (by decide) rfl rfl

/-- C3: when `manifestationData` lacks a (truthy) `manifestationOfWork`
and the supplied existing Work has no `persistId`, the operation fails
with the not-yet-persisted error and the ledger state is unchanged: zero
creation calls were issued. -/
theorem register_manifestation_unpersisted_existing_work_errors (pl : Plugin)
    (md : DataMap) (u : String) (w : Entity) (wd : Option DataMap) (σ : LedgerState)
    (hmow : truthyOpt (DataMap.get md "manifestationOfWork") = false)
    (hk : w.kind = EntityKind.work)
    (hp : w.persistId = none) :
    register_manifestation pl md u (some w) wd σ =
      (Except.error CoalaError.entityNotYetPersistedError, σ) := by
  simp [register_manifestation, resolve_work, hmow, hk, hp]

/-- Witness for C3 at a concrete input. -/
theorem register_manifestation_unpersisted_existing_work_errors_witness :
    register_manifestation testPlugin [("name", Val.vstr "Song A")] "u"
      (some ⟨EntityKind.work, [("name", Val.vstr "W")], none⟩) none ⟨0, []⟩ =
      (Except.error CoalaError.entityNotYetPersistedError, (⟨0, []⟩ : LedgerState)) :=
  register_manifestation_unpersisted_existing_work_errors testPlugin
    [("name", Val.vstr "Song A")] "u" ⟨EntityKind.work, [("name", Val.vstr "W")], none⟩
    none ⟨0, []⟩ (by decide) rfl rfl

/-- C4: when `manifestationData` lacks a (truthy) `manifestationOfWork`
and the supplied existing work is not a Work instance, the operation fails
with the usage (type) error and the ledger state is unchanged: zero
creation calls were issued. -/
theorem register_manifestation_non_work_existing_errors (pl : Plugin)
    (md : DataMap) (u : String) (w : Entity) (wd : Option DataMap) (σ : LedgerState)
    (hmow : truthyOpt (DataMap.get md "manifestationOfWork") = false)
    (hk : w.kind ≠ EntityKind.work) :
    register_manifestation pl md u (some w) wd σ =
      (Except.error CoalaError.typeError, σ) := by
  simp [register_manifestation, resolve_work, hmow, hk]

/-- Witness for C4 at a concrete input. -/
theorem register_manifestation_non_work_existing_errors_witness :
    register_manifestation testPlugin [("name", Val.vstr "Song A")] "u"
      (some ⟨EntityKind.copyright, [], some "C0"⟩) none ⟨0, []⟩ =
      (Except.error CoalaError.typeError, (⟨0, []⟩ : LedgerState)) :=
  register_manifestation_non_work_existing_errors testPlugin
    [("name", Val.vstr "Song A")] "u" ⟨EntityKind.copyright, [], some "C0"⟩
    none ⟨0, []⟩ (by decide) (by decide)

/-- C5: when `rightData` lacks a (truthy) `allowedBy` and no source Right
is supplied, `derive_right` fails with the usage error and the ledger
state is unchanged: zero creation calls were issued. -/
theorem derive_right_missing_source_errors (pl : Plugin) (rd : DataMap)
    (hd : String) (k : EntityKind) (σ : LedgerState)
    (hab : truthyOpt (DataMap.get rd "allowedBy") = false) :
    derive_right pl rd hd none k σ = (Except.error CoalaError.valueError, σ) := by
  simp [derive_right, hab]

/-- Witness for C5 at a concrete input. -/
theorem derive_right_missing_source_errors_witness :
    derive_right testPlugin [("license", Val.vstr "CC-BY")] "holder" none
      EntityKind.right ⟨0, []⟩ = (Except.error CoalaError.valueError, (⟨0, []⟩ : LedgerState)) :=
  derive_right_missing_source_errors testPlugin [("license", Val.vstr "CC-BY")]
    "holder" EntityKind.right ⟨0, []⟩ (by decide)


/-- C6: when `rightData` lacks a (truthy) `allowedBy` and a persisted
source Right (a Right-family instance with a non-null `persistId`) is
supplied, `derive_right` succeeds and the created Right's `allowedBy`
equals the source Right's `persistId`. -/
theorem derive_right_links_source_right (pl : Plugin) (rd : DataMap)
    (hd : String) (sr : Entity) (k : EntityKind) (σ : LedgerState)
    (pid rid : String)
    (hab : truthyOpt (DataMap.get rd "allowedBy") = false)
    (hsr : isRightKind sr.kind = true)
    (hsp : sr.persistId = some pid)
    (hk : isRightKind k = true)
    (h0 : pl.createResult σ.count = some rid) :
    derive_right pl rd hd (some sr) k σ =
      (Except.ok ⟨k, DataMap.set rd "allowedBy" (Val.vstr pid), some rid⟩,
       ⟨σ.count + 1, σ.trace ++
         [⟨k, DataMap.set rd "allowedBy" (Val.vstr pid), hd⟩]⟩) ∧
    DataMap.get (DataMap.set rd "allowedBy" (Val.vstr pid)) "allowedBy" =
      some (Val.vstr pid) :=
  ⟨derive_right_source_spec pl rd hd sr k σ pid rid hab hsr hsp hk h0,
   DataMap.get_set_self rd "allowedBy" (Val.vstr pid)⟩

/-- Witness for C6 at a concrete input (the spec scenario: empty right
data, source Right persisted as `R0id`). -/
theorem derive_right_links_source_right_witness :
    derive_right testPlugin [] "holder"
      (some ⟨EntityKind.right, [], some "R0id"⟩) EntityKind.right ⟨0, []⟩ =
      (Except.ok ⟨EntityKind.right, [("allowedBy", Val.vstr "R0id")], some "id0"⟩,
       ⟨1, [⟨EntityKind.right, [("allowedBy", Val.vstr "R0id")], "holder"⟩]⟩) ∧
    DataMap.get (DataMap.set [] "allowedBy" (Val.vstr "R0id")) "allowedBy" =
      some (Val.vstr "R0id") :=
  derive_right_links_source_right testPlugin [] "holder"
    ⟨EntityKind.right, [], some "R0id"⟩ EntityKind.right ⟨0, []⟩ "R0id" "id0"
    (by decide) (by decide) rfl (by decide) rfl

/-- C7: `transfer_right` fails with the not-implemented signal on every
input, and the ledger state is unchanged: no Plugin Boundary call is
performed. -/
theorem transfer_right_not_implemented (pl : Plugin) (right : String)
    (rad : DataMap) (fu tu : String) (df : Option String) (σ : LedgerState) :
    transfer_right pl right rad fu tu df σ =
      (Except.error CoalaError.notImplementedError, σ) := rfl


/-- C8: `register_manifestation` is not idempotent.  Running it twice with
the identical input data (and a backend accepting all calls) issues six
creation calls in total — a second full Work/Manifestation/Copyright graph
is created with no deduplication — and, the backend never reusing
identifiers, none of the second run's three entities equals its
counterpart from the first run. -/
theorem register_manifestation_twice_not_idempotent (pl : Plugin) (md : DataMap)
    (u : String) (σ : LedgerState) (id0 id1 id2 id3 id4 id5 : String)
    (hvalid : validData EntityKind.manifestation md = true)
    (hmow : truthyOpt (DataMap.get md "manifestationOfWork") = false)
    (h0 : pl.createResult σ.count = some id0)
    (h1 : pl.createResult (σ.count + 1) = some id1)
    (h2 : pl.createResult (σ.count + 2) = some id2)
    (h3 : pl.createResult (σ.count + 3) = some id3)
    (h4 : pl.createResult (σ.count + 4) = some id4)
    (h5 : pl.createResult (σ.count + 5) = some id5)
    (hw : id0 ≠ id3) (hm : id1 ≠ id4) (hc : id2 ≠ id5) :
    register_manifestation pl md u none none σ =
      (Except.ok
        ⟨⟨EntityKind.copyright, [("rightsOf", Val.vstr id1)], some id2⟩,
         ⟨EntityKind.manifestation,
           DataMap.set md "manifestationOfWork" (Val.vstr id0), some id1⟩,
         some ⟨EntityKind.work,
           [("name", (DataMap.get md "name").getD Val.vnull)], some id0⟩⟩,
       ⟨σ.count + 3, σ.trace ++
         [⟨EntityKind.work, [("name", (DataMap.get md "name").getD Val.vnull)], u⟩,
          ⟨EntityKind.manifestation,
            DataMap.set md "manifestationOfWork" (Val.vstr id0), u⟩,
          ⟨EntityKind.copyright, [("rightsOf", Val.vstr id1)], u⟩]⟩) ∧
    register_manifestation pl md u none none
      ⟨σ.count + 3, σ.trace ++
        [⟨EntityKind.work, [("name", (DataMap.get md "name").getD Val.vnull)], u⟩,
         ⟨EntityKind.manifestation,
           DataMap.set md "manifestationOfWork" (Val.vstr id0), u⟩,
         ⟨EntityKind.copyright, [("rightsOf", Val.vstr id1)], u⟩]⟩ =
      (Except.ok
        ⟨⟨EntityKind.copyright, [("rightsOf", Val.vstr id4)], some id5⟩,
         ⟨EntityKind.manifestation,
           DataMap.set md "manifestationOfWork" (Val.vstr id3), some id4⟩,
         some ⟨EntityKind.work,
           [("name", (DataMap.get md "name").getD Val.vnull)], some id3⟩⟩,
       ⟨σ.count + 6, σ.trace ++
         [⟨EntityKind.work, [("name", (DataMap.get md "name").getD Val.vnull)], u⟩,
          ⟨EntityKind.manifestation,
            DataMap.set md "manifestationOfWork" (Val.vstr id0), u⟩,
          ⟨EntityKind.copyright, [("rightsOf", Val.vstr id1)], u⟩,
          ⟨EntityKind.work, [("name", (DataMap.get md "name").getD Val.vnull)], u⟩,
          ⟨EntityKind.manifestation,
            DataMap.set md "manifestationOfWork" (Val.vstr id3), u⟩,
          ⟨EntityKind.copyright, [("rightsOf", Val.vstr id4)], u⟩]⟩) ∧
    (some ⟨EntityKind.work,
       [("name", (DataMap.get md "name").getD Val.vnull)], some id0⟩ : Option Entity) ≠
      some ⟨EntityKind.work,
        [("name", (DataMap.get md "name").getD Val.vnull)], some id3⟩ ∧
    (⟨EntityKind.manifestation,
       DataMap.set md "manifestationOfWork" (Val.vstr id0), some id1⟩ : Entity) ≠
      ⟨EntityKind.manifestation,
        DataMap.set md "manifestationOfWork" (Val.vstr id3), some id4⟩ ∧
    (⟨EntityKind.copyright, [("rightsOf", Val.vstr id1)], some id2⟩ : Entity) ≠
      ⟨EntityKind.copyright, [("rightsOf", Val.vstr id4)], some id5⟩ := by
  have e1 := register_manifestation_new_work_spec pl md u σ id0 id1 id2 hvalid hmow h0 h1 h2
  have e2 := register_manifestation_new_work_spec pl md u
    ⟨σ.count + 3, σ.trace ++
      [⟨EntityKind.work, [("name", (DataMap.get md "name").getD Val.vnull)], u⟩,
       ⟨EntityKind.manifestation,
         DataMap.set md "manifestationOfWork" (Val.vstr id0), u⟩,
       ⟨EntityKind.copyright, [("rightsOf", Val.vstr id1)], u⟩]⟩
    id3 id4 id5 hvalid hmow h3 h4 h5
  rw [List.append_assoc] at e2
  refine ⟨e1, e2, ?_, ?_, ?_⟩
  · simp [hw]
  · simp [hm]
  · simp [hc]

/-- Witness for C8 at a concrete input. -/
theorem register_manifestation_twice_not_idempotent_witness :
    register_manifestation testPlugin [("name", Val.vstr "Song A")] "u" none none ⟨0, []⟩ =
      (Except.ok
        ⟨⟨EntityKind.copyright, [("rightsOf", Val.vstr "id1")], some "id2"⟩,
         ⟨EntityKind.manifestation,
           [("name", Val.vstr "Song A"), ("manifestationOfWork", Val.vstr "id0")],
           some "id1"⟩,
         some ⟨EntityKind.work, [("name", Val.vstr "Song A")], some "id0"⟩⟩,
       ⟨3, [⟨EntityKind.work, [("name", Val.vstr "Song A")], "u"⟩,
            ⟨EntityKind.manifestation,
              [("name", Val.vstr "Song A"), ("manifestationOfWork", Val.vstr "id0")], "u"⟩,
            ⟨EntityKind.copyright, [("rightsOf", Val.vstr "id1")], "u"⟩]⟩) ∧
    register_manifestation testPlugin [("name", Val.vstr "Song A")] "u" none none
      ⟨3, [⟨EntityKind.work, [("name", Val.vstr "Song A")], "u"⟩,
           ⟨EntityKind.manifestation,
             [("name", Val.vstr "Song A"), ("manifestationOfWork", Val.vstr "id0")], "u"⟩,
           ⟨EntityKind.copyright, [("rightsOf", Val.vstr "id1")], "u"⟩]⟩ =
      (Except.ok
        ⟨⟨EntityKind.copyright, [("rightsOf", Val.vstr "id4")], some "id5"⟩,
         ⟨EntityKind.manifestation,
           [("name", Val.vstr "Song A"), ("manifestationOfWork", Val.vstr "id3")],
           some "id4"⟩,
         some ⟨EntityKind.work, [("name", Val.vstr "Song A")], some "id3"⟩⟩,
       ⟨6, [⟨EntityKind.work, [("name", Val.vstr "Song A")], "u"⟩,
            ⟨EntityKind.manifestation,
              [("name", Val.vstr "Song A"), ("manifestationOfWork", Val.vstr "id0")], "u"⟩,
            ⟨EntityKind.copyright, [("rightsOf", Val.vstr "id1")], "u"⟩,
            ⟨EntityKind.work, [("name", Val.vstr "Song A")], "u"⟩,
            ⟨EntityKind.manifestation,
              [("name", Val.vstr "Song A"), ("manifestationOfWork", Val.vstr "id3")], "u"⟩,
            ⟨EntityKind.copyright, [("rightsOf", Val.vstr "id4")], "u"⟩]⟩) ∧
    (some ⟨EntityKind.work, [("name", Val.vstr "Song A")], some "id0"⟩ : Option Entity) ≠
      some ⟨EntityKind.work, [("name", Val.vstr "Song A")], some "id3"⟩ ∧
    (⟨EntityKind.manifestation,
       [("name", Val.vstr "Song A"), ("manifestationOfWork", Val.vstr "id0")],
       some "id1"⟩ : Entity) ≠
      ⟨EntityKind.manifestation,
        [("name", Val.vstr "Song A"), ("manifestationOfWork", Val.vstr "id3")],
        some "id4"⟩ ∧
    (⟨EntityKind.copyright, [("rightsOf", Val.vstr "id1")], some "id2"⟩ : Entity) ≠
      ⟨EntityKind.copyright, [("rightsOf", Val.vstr "id4")], some "id5"⟩ :=
  register_manifestation_twice_not_idempotent testPlugin
    [("name", Val.vstr "Song A")] "u" ⟨0, []⟩ "id0" "id1" "id2" "id3" "id4" "id5"
    (by decide) (by decide) rfl rfl rfl rfl rfl rfl
    (by decide) (by decide) (by decide)


/-- C9: the presence checks on `manifestationOfWork` and `allowedBy` are
truthiness checks, not key-presence checks.  For any value of the
`manifestationOfWork` key whose truthiness is false (e.g. null or the
empty string), `register_manifestation` behaves as if the key were absent:
it still resolves (here: validates an existing) Work and overwrites
`manifestationOfWork` with that Work's identifier.  Likewise, for a falsy
`allowedBy` value, `derive_right` requires a source Right (usage error
without one) and overwrites `allowedBy` with the source Right's
identifier. -/
theorem truthiness_not_key_presence (pl pl2 pl3 : Plugin) (md rd : DataMap)
    (u hd : String) (σ σb σc : LedgerState) (v v2 : Val) (w sr : Entity)
    (pid spid mid cid rid : String) (k : EntityKind)
    (hmd : DataMap.get md "manifestationOfWork" = some v)
    (hv : v.truthy = false)
    (hvalid : validData EntityKind.manifestation md = true)
    (hwk : w.kind = EntityKind.work)
    (hwp : w.persistId = some pid)
    (hm0 : pl.createResult σ.count = some mid)
    (hm1 : pl.createResult (σ.count + 1) = some cid)
    (hrd : DataMap.get rd "allowedBy" = some v2)
    (hv2 : v2.truthy = false)
    (hsr : isRightKind sr.kind = true)
    (hsp : sr.persistId = some spid)
    (hk : isRightKind k = true)
    (hr0 : pl3.createResult σc.count = some rid) :
    (register_manifestation pl md u (some w) none σ =
      (Except.ok
        ⟨⟨EntityKind.copyright, [("rightsOf", Val.vstr mid)], some cid⟩,
         ⟨EntityKind.manifestation,
           DataMap.set md "manifestationOfWork" (Val.vstr pid), some mid⟩,
         some w⟩,
       ⟨σ.count + 2, σ.trace ++
         [⟨EntityKind.manifestation,
            DataMap.set md "manifestationOfWork" (Val.vstr pid), u⟩,
          ⟨EntityKind.copyright, [("rightsOf", Val.vstr mid)], u⟩]⟩) ∧
     DataMap.get (DataMap.set md "manifestationOfWork" (Val.vstr pid))
       "manifestationOfWork" = some (Val.vstr pid)) ∧
    derive_right pl2 rd hd none k σb = (Except.error CoalaError.valueError, σb) ∧
    (derive_right pl3 rd hd (some sr) k σc =
      (Except.ok ⟨k, DataMap.set rd "allowedBy" (Val.vstr spid), some rid⟩,
       ⟨σc.count + 1, σc.trace ++
         [⟨k, DataMap.set rd "allowedBy" (Val.vstr spid), hd⟩]⟩) ∧
     DataMap.get (DataMap.set rd "allowedBy" (Val.vstr spid)) "allowedBy" =
       some (Val.vstr spid)) := by
  have hmow : truthyOpt (DataMap.get md "manifestationOfWork") = false := by
    rw [hmd]; exact hv
  have hab : truthyOpt (DataMap.get rd "allowedBy") = false := by
    rw [hrd]; exact hv2
  refine ⟨⟨register_manifestation_existing_work_spec pl md u w none σ pid mid cid
            hvalid hmow hwk hwp hm0 hm1,
          DataMap.get_set_self md "manifestationOfWork" (Val.vstr pid)⟩,
         ?_,
         derive_right_source_spec pl3 rd hd sr k σc spid rid hab hsr hsp hk hr0,
         DataMap.get_set_self rd "allowedBy" (Val.vstr spid)⟩
  simp [derive_right, hab]

/-- Witness for C9 at concrete inputs: `manifestationOfWork` present but
null, `allowedBy` present but the empty string. -/
theorem truthiness_not_key_presence_witness :
    (register_manifestation testPlugin
      [("name", Val.vstr "Song A"), ("manifestationOfWork", Val.vnull)] "u"
      (some ⟨EntityKind.work, [("name", Val.vstr "W")], some "W1"⟩) none ⟨0, []⟩ =
      (Except.ok
        ⟨⟨EntityKind.copyright, [("rightsOf", Val.vstr "id0")], some "id1"⟩,
         ⟨EntityKind.manifestation,
           [("name", Val.vstr "Song A"), ("manifestationOfWork", Val.vstr "W1")],
           some "id0"⟩,
         some ⟨EntityKind.work, [("name", Val.vstr "W")], some "W1"⟩⟩,
       ⟨2, [⟨EntityKind.manifestation,
              [("name", Val.vstr "Song A"), ("manifestationOfWork", Val.vstr "W1")], "u"⟩,
            ⟨EntityKind.copyright, [("rightsOf", Val.vstr "id0")], "u"⟩]⟩) ∧
     DataMap.get
       (DataMap.set [("name", Val.vstr "Song A"), ("manifestationOfWork", Val.vnull)]
         "manifestationOfWork" (Val.vstr "W1"))
       "manifestationOfWork" = some (Val.vstr "W1")) ∧
    derive_right testPlugin [("allowedBy", Val.vstr "")] "holder" none
      EntityKind.right ⟨0, []⟩ = (Except.error CoalaError.valueError, (⟨0, []⟩ : LedgerState)) ∧
    (derive_right testPlugin [("allowedBy", Val.vstr "")] "holder"
      (some ⟨EntityKind.rightSub, [], some "R0id"⟩) EntityKind.right ⟨0, []⟩ =
      (Except.ok ⟨EntityKind.right, [("allowedBy", Val.vstr "R0id")], some "id0"⟩,
       ⟨1, [⟨EntityKind.right, [("allowedBy", Val.vstr "R0id")], "holder"⟩]⟩) ∧
     DataMap.get (DataMap.set [("allowedBy", Val.vstr "")] "allowedBy" (Val.vstr "R0id"))
       "allowedBy" = some (Val.vstr "R0id")) :=
  truthiness_not_key_presence testPlugin testPlugin testPlugin
    [("name", Val.vstr "Song A"), ("manifestationOfWork", Val.vnull)]
    [("allowedBy", Val.vstr "")] "u" "holder" ⟨0, []⟩ ⟨0, []⟩ ⟨0, []⟩
    Val.vnull (Val.vstr "")
    ⟨EntityKind.work, [("name", Val.vstr "W")], some "W1"⟩
    ⟨EntityKind.rightSub, [], some "R0id"⟩
    "W1" "R0id" "id0" "id1" "id0" EntityKind.right
    rfl (by decide) (by decide) rfl rfl rfl rfl rfl (by decide) (by decide)
    rfl (by decide) rfl

/-- C10: the orchestrator mutates the caller-supplied mappings in place
(the created entity holds the same mapping object): on every successful
`register_manifestation` run that resolves a Work, the Manifestation's
mapping is the caller's `manifestationData` updated so that
`manifestationOfWork` holds the resolved Work's `persistId`; on every
successful lineage-resolving `derive_right` run, the created Right's
mapping is the caller's `rightData` updated so that `allowedBy` holds the
source Right's `persistId`; and the update changes no other key: looking
up any other key is unchanged, and the key list is unchanged when the key
was present, extended by exactly that key otherwise. -/
theorem caller_mappings_updated_in_place (pl pl2 : Plugin) (md rd : DataMap)
    (u hd : String) (ew : Option Entity) (wd : Option DataMap)
    (σ σb σ1 σ2 : LedgerState) (res : RegistrationResult) (w0 sr r2 : Entity)
    (k : EntityKind)
    (hreg : register_manifestation pl md u ew wd σ = (Except.ok res, σ1))
    (hw : res.work = some w0)
    (hab : truthyOpt (DataMap.get rd "allowedBy") = false)
    (hder : derive_right pl2 rd hd (some sr) k σb = (Except.ok r2, σ2)) :
    (∃ pid, w0.persistId = some pid ∧
      res.manifestation.data = DataMap.set md "manifestationOfWork" (Val.vstr pid)) ∧
    (∃ spid, sr.persistId = some spid ∧
      r2.data = DataMap.set rd "allowedBy" (Val.vstr spid)) ∧
    (∀ d key v, DataMap.get (DataMap.set d key v) key = some v) ∧
    (∀ d key v k2, key ≠ k2 →
      DataMap.get (DataMap.set d key v) k2 = DataMap.get d k2) ∧
    (∀ d key v, DataMap.keys (DataMap.set d key v) =
      if (DataMap.get d key).isSome then DataMap.keys d
      else DataMap.keys d ++ [key]) := by
  obtain ⟨work, md2, σw, hres, hwork, hdata⟩ :=
    register_manifestation_ok_inv pl md u ew wd σ res σ1 hreg
  have hws : work = some w0 := hwork.symm.trans hw
  rw [hws] at hres
  obtain ⟨pid, hpid, hmd2⟩ :=
    resolve_work_ok_some pl md u ew wd σ w0 md2 σw hres
  obtain ⟨spid, hspid, hr2⟩ :=
    derive_right_ok_inv pl2 rd hd sr k σb r2 σ2 hab hder
  exact ⟨⟨pid, hpid, by rw [hdata, hmd2]⟩,
         ⟨spid, hspid, hr2⟩,
         fun d key v => DataMap.get_set_self d key v,
         fun d key v k2 h => DataMap.get_set_ne d key v k2 h,
         fun d key v => DataMap.keys_set d key v⟩

/-- Witness for C10 at concrete inputs. -/
theorem caller_mappings_updated_in_place_witness :
    (∃ pid, (Entity.mk EntityKind.work [("name", Val.vstr "Song B")] (some "id0")).persistId
        = some pid ∧
      [("name", Val.vstr "Song B"), ("manifestationOfWork", Val.vstr "id0")] =
        DataMap.set [("name", Val.vstr "Song B")] "manifestationOfWork" (Val.vstr pid)) ∧
    (∃ spid, (Entity.mk EntityKind.right [] (some "R9")).persistId = some spid ∧
      [("notes", Val.vstr "x"), ("allowedBy", Val.vstr "R9")] =
        DataMap.set [("notes", Val.vstr "x")] "allowedBy" (Val.vstr spid)) ∧
    (∀ d key v, DataMap.get (DataMap.set d key v) key = some v) ∧
    (∀ d key v k2, key ≠ k2 →
      DataMap.get (DataMap.set d key v) k2 = DataMap.get d k2) ∧
    (∀ d key v, DataMap.keys (DataMap.set d key v) =
      if (DataMap.get d key).isSome then DataMap.keys d
      else DataMap.keys d ++ [key]) :=
  caller_mappings_updated_in_place testPlugin testPlugin
    [("name", Val.vstr "Song B")] [("notes", Val.vstr "x")] "u" "holder"
    none none ⟨0, []⟩ ⟨0, []⟩
    ⟨3, [⟨EntityKind.work, [("name", Val.vstr "Song B")], "u"⟩,
         ⟨EntityKind.manifestation,
           [("name", Val.vstr "Song B"), ("manifestationOfWork", Val.vstr "id0")], "u"⟩,
         ⟨EntityKind.copyright, [("rightsOf", Val.vstr "id1")], "u"⟩]⟩
    ⟨1, [⟨EntityKind.right, [("notes", Val.vstr "x"), ("allowedBy", Val.vstr "R9")], "holder"⟩]⟩
    ⟨⟨EntityKind.copyright, [("rightsOf", Val.vstr "id1")], some "id2"⟩,
     ⟨EntityKind.manifestation,
       [("name", Val.vstr "Song B"), ("manifestationOfWork", Val.vstr "id0")],
       some "id1"⟩,
     some ⟨EntityKind.work, [("name", Val.vstr "Song B")], some "id0"⟩⟩
    ⟨EntityKind.work, [("name", Val.vstr "Song B")], some "id0"⟩
    ⟨EntityKind.right, [], some "R9"⟩
    ⟨EntityKind.right, [("notes", Val.vstr "x"), ("allowedBy", Val.vstr "R9")], some "id0"⟩
    EntityKind.right
    rfl rfl (by decide) rfl

end CoalaIp
